import Mathlib

/-!
Verification development for the clawdbot convergence core: a shallow
embedding in Lean 4 of the Autonomous Task Controller
(`extensions/convergence-core` autonomous-controller module) and the
service registry of `auto-config.ts`, together with theorems settling the
frozen behavioural claims about priority dispatch, retry bounds, load
accounting, cancellation, completion timestamps, failure observability,
mode switching, service registration, and status reporting.

Machine time (`Date.now()`) is passed explicitly as a `now : Nat`
parameter; `generateId` is modelled as a fresh-id counter threaded through
the controller state; opaque `Record<string, unknown>` payloads are
modelled as `Nat`; floating-point statistics (`successRate`,
`avgLatencyMs`, scores) are modelled as exact rationals.  JavaScript
`Map` objects are modelled as insertion-ordered association lists with
`Map.set` upsert semantics.  Event emission is modelled by returning the
emitted payloads from the operations that emit them.
-/

namespace Clawdbot

/-- Operation mode of the autonomous controller. -/
inductive OperationMode
  | supervised
  | autonomous
  | unrestricted
deriving DecidableEq, Repr

/-- Task type, as in the `Task.type` union of the source. -/
inductive TaskType
  | voice
  | text
  | code
  | research
  | autonomous
  | custom
deriving DecidableEq, Repr

/-- Task priority class. -/
inductive TaskPriority
  | low
  | normal
  | high
  | critical
deriving DecidableEq, Repr

/-- Task lifecycle status.  (`assigned` is declared in the source union but
the dispatch loop sets `running` directly.) -/
inductive TaskStatus
  | queued
  | assigned
  | running
  | completed
  | failed
  | cancelled
deriving DecidableEq, Repr

/-- Capability backend family (`AgentCapability.type`). -/
inductive CapType
  | personaplex
  | agentZero
  | poke
  | mcpTool
  | custom
deriving DecidableEq, Repr

/-- Decision type of the audit log. -/
inductive DecisionType
  | route
  | scale
  | heal
  | optimize
  | restrict
  | unrestrict
deriving DecidableEq, Repr

/-- A task record.  `input` and `result` are opaque payloads, modelled as
`Nat`; task ids are modelled as the fresh-id counter value at creation. -/
structure Task where
  id : Nat
  type : TaskType
  input : Nat
  priority : TaskPriority
  status : TaskStatus
  assignedTo : Option String
  createdAt : Nat
  startedAt : Option Nat
  completedAt : Option Nat
  result : Option Nat
  error : Option String
  retryCount : Nat
  maxRetries : Nat
deriving DecidableEq, Repr

/-- A registered execution backend.  `currentLoad` is an `Int` (not `Nat`)
because the source decrements it without a lower-bound guard. -/
structure AgentCapability where
  id : String
  name : String
  type : CapType
  priority : ℚ
  enabled : Bool
  maxConcurrent : Int
  currentLoad : Int
  successRate : ℚ
  avgLatencyMs : ℚ
  tags : List String
deriving DecidableEq, Repr

/-- An audit-log decision record; the opaque `input`/`output` payloads of
the source are not needed by any claim and are omitted. -/
structure Decision where
  id : Nat
  type : DecisionType
  reason : String
  confidence : ℚ
  timestamp : Nat
  executed : Bool
  requiresApproval : Bool
deriving DecidableEq, Repr

/-- Controller configuration (`ControllerConfig`). -/
structure ControllerConfig where
  mode : OperationMode
  selfHealing : Bool
  autoScaling : Bool
  intelligentRouting : Bool
  maxConcurrentTasks : Nat
  taskTimeoutMs : Nat
  maxRetries : Nat
  decisionThreshold : ℚ
  contentFiltering : Bool
  safetyGuardrails : Bool
  verboseLogging : Bool
deriving DecidableEq, Repr

/-- `DEFAULT_CONFIG` of the source. -/
def DEFAULT_CONFIG : ControllerConfig :=
  { mode := OperationMode.autonomous
    selfHealing := true
    autoScaling := true
    intelligentRouting := true
    maxConcurrentTasks := 10
    taskTimeoutMs := 300000
    maxRetries := 3
    decisionThreshold := 7/10
    contentFiltering := false
    safetyGuardrails := false
    verboseLogging := true }

/-- The whole mutable state of an `AutonomousController` instance.
`capabilities` and `activeTasks` are insertion-ordered maps keyed by id;
`nextId` models `generateId` freshness. -/
structure ControllerState where
  config : ControllerConfig
  capabilities : List AgentCapability
  taskQueue : List Task
  activeTasks : List Task
  decisions : List Decision
  isRunning : Bool
  nextId : Nat
deriving DecidableEq, Repr

/-- `Map.set` on the capability map: replace in place when the key exists
(keeping its position), else append. -/
def capSet (caps : List AgentCapability) (cap : AgentCapability) :
    List AgentCapability :=
  if caps.any (fun c => c.id == cap.id) then
    caps.map (fun c => if c.id == cap.id then cap else c)
  else
    caps ++ [cap]

/-- Update the capability with the given id in place (used to model field
mutation of a capability object held in the map). -/
def updateCap (caps : List AgentCapability) (capId : String)
    (f : AgentCapability → AgentCapability) : List AgentCapability :=
  caps.map (fun c => if c.id == capId then f c else c)

/-- The three built-in capabilities installed by
`initializeDefaultCapabilities`. -/
def defaultCapabilities : List AgentCapability :=
  [ { id := "personaplex-voice"
      name := "PersonaPlex Voice"
      type := CapType.personaplex
      priority := 1
      enabled := true
      maxConcurrent := 5
      currentLoad := 0
      successRate := 1
      avgLatencyMs := 100
      tags := ["voice", "speech", "audio", "conversation"] },
    { id := "agent-zero-auto"
      name := "Agent Zero Autonomous"
      type := CapType.agentZero
      priority := 2
      enabled := true
      maxConcurrent := 3
      currentLoad := 0
      successRate := 1
      avgLatencyMs := 500
      tags := ["autonomous", "code", "planning", "execution"] },
    { id := "poke-research"
      name := "Poke Research"
      type := CapType.poke
      priority := 3
      enabled := true
      maxConcurrent := 5
      currentLoad := 0
      successRate := 1
      avgLatencyMs := 1000
      tags := ["research", "gmail", "onboarding", "profile"] } ]

/-- The controller constructor: default config merged with overrides is
taken as the given `cfg`; installs the default capabilities. -/
def initController (cfg : ControllerConfig) : ControllerState :=
  { config := cfg
    capabilities := defaultCapabilities
    taskQueue := []
    activeTasks := []
    decisions := []
    isRunning := false
    nextId := 0 }

/-- `registerCapability`: upsert into the capability map. -/
def registerCapability (cap : AgentCapability) (s : ControllerState) :
    ControllerState :=
  { s with capabilities := capSet s.capabilities cap }

/-- `calculateConfidence`: static base confidence by decision type. -/
def calculateConfidence : DecisionType → ℚ
  | DecisionType.route => 9/10
  | DecisionType.scale => 4/5
  | DecisionType.heal => 17/20
  | DecisionType.optimize => 3/4
  | DecisionType.restrict => 7/10
  | DecisionType.unrestrict => 3/5

/-- `makeDecision`: append an audit decision; `executed` is true unless the
mode is `supervised`. -/
def makeDecision (dt : DecisionType) (reason : String) (now : Nat)
    (s : ControllerState) : Decision × ControllerState :=
  let d : Decision :=
    { id := s.nextId
      type := dt
      reason := reason
      confidence := calculateConfidence dt
      timestamp := now
      executed := decide (s.config.mode ≠ OperationMode.supervised)
      requiresApproval := decide (s.config.mode = OperationMode.supervised) }
  (d, { s with decisions := s.decisions ++ [d], nextId := s.nextId + 1 })

/-- `setMode`: switch the operation mode, force the filtering flags for
`unrestricted` (both off) and `supervised` (both on), leave them for
`autonomous`, and log a `route` decision. -/
def setMode (mode : OperationMode) (now : Nat) (s : ControllerState) :
    ControllerState :=
  let cfg := { s.config with mode := mode }
  let cfg :=
    if mode = OperationMode.unrestricted then
      { cfg with contentFiltering := false, safetyGuardrails := false }
    else if mode = OperationMode.supervised then
      { cfg with contentFiltering := true, safetyGuardrails := true }
    else cfg
  (makeDecision DecisionType.route "Mode changed" now
    { s with config := cfg }).2

/-- The blocked-pattern list of `shouldFilterContent` — empty in the
source. -/
def blockedPatterns : List String := []

/-- Whether a pattern matches the serialized input — opaque substring test
in the source; it is never consulted because `blockedPatterns` is empty. -/
def patternMatches (_input : Nat) (_pattern : String) : Bool := true

/-- `shouldFilterContent`: never filter in unrestricted mode or with
filtering off; otherwise test the (empty) blocklist. -/
def shouldFilterContent (cfg : ControllerConfig) (input : Nat) : Bool :=
  if cfg.mode = OperationMode.unrestricted ∨ cfg.contentFiltering = false
  then false
  else blockedPatterns.any (fun p => patternMatches input p)

/-- `priorityOrder` table of `insertTaskByPriority`. -/
def priorityOrder : TaskPriority → Nat
  | TaskPriority.critical => 0
  | TaskPriority.high => 1
  | TaskPriority.normal => 2
  | TaskPriority.low => 3

/-- `insertTaskByPriority`: insert before the first queued task of a
strictly lower priority class (`findIndex` + `splice`), else push. -/
def insertTaskByPriority (task : Task) : List Task → List Task
  | [] => [task]
  | t :: ts =>
    if priorityOrder task.priority < priorityOrder t.priority then
      task :: t :: ts
    else
      t :: insertTaskByPriority task ts

/-- `submitTask`: build a fresh task; unless filtering applies, insert it
into the priority queue.  Returns the task object handed back to the
caller together with the new state. -/
def submitTask (ttype : TaskType) (input : Nat)
    (priority : Option TaskPriority) (maxRetries : Option Nat) (now : Nat)
    (s : ControllerState) : Task × ControllerState :=
  let task : Task :=
    { id := s.nextId
      type := ttype
      input := input
      priority := priority.getD TaskPriority.normal
      status := TaskStatus.queued
      assignedTo := none
      createdAt := now
      startedAt := none
      completedAt := none
      result := none
      error := none
      retryCount := 0
      maxRetries := maxRetries.getD s.config.maxRetries }
  let s := { s with nextId := s.nextId + 1 }
  if s.config.contentFiltering = false ∨
     s.config.mode = OperationMode.unrestricted then
    (task, { s with taskQueue := insertTaskByPriority task s.taskQueue })
  else if shouldFilterContent s.config input then
    let task :=
      { task with
        status := TaskStatus.cancelled
        error := some "Content filtered by guardrails" }
    (task, s)
  else
    (task, { s with taskQueue := insertTaskByPriority task s.taskQueue })

/-- Find a task by id in a task list. -/
def findTask (ts : List Task) (taskId : Nat) : Option Task :=
  ts.find? (fun t => t.id == taskId)

/-- `getTask`: look in the active map first, then scan the queue. -/
def getTask (s : ControllerState) (taskId : Nat) : Option Task :=
  (findTask s.activeTasks taskId).orElse
    (fun _ => findTask s.taskQueue taskId)

/-- Set the status of the task with the given id wherever it lives
(models in-place mutation of the shared task object). -/
def setTaskStatus (s : ControllerState) (taskId : Nat) (st : TaskStatus) :
    ControllerState :=
  { s with
    taskQueue :=
      s.taskQueue.map (fun t => if t.id == taskId then { t with status := st } else t)
    activeTasks :=
      s.activeTasks.map (fun t => if t.id == taskId then { t with status := st } else t) }

/-- `cancelTask`: if the task exists and is neither completed nor failed,
mark it cancelled (and emit `task_cancelled`); return whether it did. -/
def cancelTask (taskId : Nat) (s : ControllerState) :
    Bool × ControllerState :=
  match getTask s taskId with
  | none => (false, s)
  | some t =>
    if t.status ≠ TaskStatus.completed ∧ t.status ≠ TaskStatus.failed then
      (true, setTaskStatus s taskId TaskStatus.cancelled)
    else
      (false, s)

/-- `matchesTaskType`: static task-type to capability-family table. -/
def typeMapping : TaskType → List CapType
  | TaskType.voice => [CapType.personaplex]
  | TaskType.text => [CapType.agentZero, CapType.poke, CapType.mcpTool]
  | TaskType.code => [CapType.agentZero]
  | TaskType.research => [CapType.poke, CapType.agentZero]
  | TaskType.autonomous => [CapType.agentZero]
  | TaskType.custom => [CapType.agentZero, CapType.mcpTool, CapType.custom]

def matchesTaskType (cap : AgentCapability) (task : Task) : Bool :=
  (typeMapping task.type).any (fun c => c == cap.type)

/-- The scoring expression of `selectCapability`. -/
def score (c : AgentCapability) : ℚ :=
  c.priority * 10 + c.successRate * 5 - c.avgLatencyMs / 1000 -
    (c.currentLoad : ℚ)

/-- Stable insertion step for the descending-score sort: a later
candidate goes after every earlier candidate of greater-or-equal score. -/
def insertByScore (c : AgentCapability) :
    List AgentCapability → List AgentCapability
  | [] => [c]
  | d :: ds =>
    if score d ≤ score c then c :: d :: ds else d :: insertByScore c ds

/-- Stable sort by descending score, modelling `Array.prototype.sort`
(stable per ES2019) with the comparator `scoreB - scoreA`. -/
def sortByScoreDesc : List AgentCapability → List AgentCapability
  | [] => []
  | c :: cs => insertByScore c (sortByScoreDesc cs)

/-- The sorted candidate list of `selectCapability`: enabled, under its
concurrency limit, family matching the task type, descending score. -/
def candidateList (task : Task) (caps : List AgentCapability) :
    List AgentCapability :=
  sortByScoreDesc
    ((caps.filter
        (fun c => c.enabled && decide (c.currentLoad < c.maxConcurrent))).filter
      (fun c => matchesTaskType c task))

/-- `selectCapability`: return the best candidate; when intelligent
routing is on and there is more than one candidate, log a `route`
decision. -/
def selectCapability (task : Task) (now : Nat) (s : ControllerState) :
    Option AgentCapability × ControllerState :=
  match candidateList task s.capabilities with
  | [] => (none, s)
  | best :: rest =>
    if s.config.intelligentRouting ∧ (best :: rest).length > 1 then
      (some best,
        (makeDecision DecisionType.route "Selected capability for task" now
          s).2)
    else
      (some best, s)

/-- Outcome of one `processTaskQueue` tick, carrying the emitted payloads:
`requeued` re-inserts at the back of the whole queue, `failedNoCap` is the
`task_failed` emission of the no-capability branch, `dispatched` is the
`task_started` emission. -/
inductive DispatchResult
  | atCapacity
  | emptyQueue
  | requeued (task : Task)
  | failedNoCap (task : Task)
  | dispatched (task : Task) (capId : String)
deriving DecidableEq, Repr

/-- One tick of the dispatch loop (`processTaskQueue`), up to the point
where execution is handed off asynchronously. -/
def processTaskQueue (now : Nat) (s : ControllerState) :
    DispatchResult × ControllerState :=
  if s.activeTasks.length ≥ s.config.maxConcurrentTasks then
    (DispatchResult.atCapacity, s)
  else
    match s.taskQueue with
    | [] => (DispatchResult.emptyQueue, s)
    | task :: rest =>
      let s := { s with taskQueue := rest }
      match selectCapability task now s with
      | (none, s) =>
        if task.retryCount < task.maxRetries then
          let task := { task with retryCount := task.retryCount + 1 }
          (DispatchResult.requeued task,
            { s with taskQueue := s.taskQueue ++ [task] })
        else
          let task :=
            { task with
              status := TaskStatus.failed
              error := some "No capable agent available" }
          (DispatchResult.failedNoCap task, s)
      | (some cap, s) =>
        let task :=
          { task with
            assignedTo := some cap.id
            status := TaskStatus.running
            startedAt := some now }
        (DispatchResult.dispatched task cap.id,
          { s with
            activeTasks := s.activeTasks ++ [task]
            capabilities :=
              updateCap s.capabilities cap.id
                (fun c => { c with currentLoad := c.currentLoad + 1 }) })

/-- The success path of `executeTask` after the executor returned:
mark the task completed, update the capability statistics, then the
`finally` block decrements `currentLoad` and removes the task from the
active map.  Returns the completed task (the `task_completed` payload). -/
def finishTaskSuccess (task : Task) (capId : String) (result : Nat)
    (startTime now : Nat) (s : ControllerState) :
    Task × ControllerState :=
  let latency : ℚ := ((now - startTime : Nat) : ℚ)
  let task :=
    { task with
      status := TaskStatus.completed
      completedAt := some now
      result := some result }
  let caps :=
    updateCap s.capabilities capId
      (fun c =>
        { c with
          avgLatencyMs := (c.avgLatencyMs + latency) / 2
          successRate := c.successRate * (9/10) + 1/10 })
  let caps :=
    updateCap caps capId
      (fun c => { c with currentLoad := c.currentLoad - 1 })
  (task,
    { s with
      capabilities := caps
      activeTasks := s.activeTasks.filter (fun t => t.id != task.id) })

/-- `handleTaskError`: decrement the capability load and decay its
success rate; then either re-queue the task (retryCount+1, back to
`queued`, priority re-insertion, optional `heal` decision) or mark it
terminally failed.  Returns the mutated task object. -/
def handleTaskError (task : Task) (capId : String) (err : String)
    (now : Nat) (s : ControllerState) : Task × ControllerState :=
  let s :=
    { s with
      capabilities :=
        updateCap s.capabilities capId
          (fun c =>
            { c with
              currentLoad := c.currentLoad - 1
              successRate := c.successRate * (9/10) }) }
  if task.retryCount < task.maxRetries then
    let task :=
      { task with
        retryCount := task.retryCount + 1
        status := TaskStatus.queued }
    let s :=
      { s with
        activeTasks := s.activeTasks.filter (fun t => t.id != task.id)
        taskQueue := insertTaskByPriority task s.taskQueue }
    let s :=
      if s.config.selfHealing then
        (makeDecision DecisionType.heal
          "Task retry with different capability" now s).2
      else s
    (task, s)
  else
    let task :=
      { task with
        status := TaskStatus.failed
        completedAt := some now
        error := some err }
    (task,
      { s with
        activeTasks := s.activeTasks.filter (fun t => t.id != task.id) })

/-- The throw path of a dispatched execution: the `finally` block of
`executeTask` runs first (decrement `currentLoad`, drop from the active
map), then the rejection handler calls `handleTaskError`. -/
def failDispatched (task : Task) (capId : String) (err : String)
    (now : Nat) (s : ControllerState) : Task × ControllerState :=
  let s :=
    { s with
      capabilities :=
        updateCap s.capabilities capId
          (fun c => { c with currentLoad := c.currentLoad - 1 })
      activeTasks := s.activeTasks.filter (fun t => t.id != task.id) }
  handleTaskError task capId err now s

/-- One capability's step of the health pass: disable it and log a
`heal` decision when underperforming (below 1/2 success) and self-healing
is on. -/
def healthStep (now : Nat) (acc : ControllerState)
    (cap : AgentCapability) : ControllerState :=
  if cap.successRate < 1/2 ∧ acc.config.selfHealing then
    (makeDecision DecisionType.heal
      "Disabled underperforming capability" now
      { acc with
        capabilities :=
          updateCap acc.capabilities cap.id
            (fun c => { c with enabled := false }) }).2
  else acc

/-- The capability-health half of `monitorHealth`: disable every
capability whose success rate fell below 1/2 (when self-healing is on)
and log a `heal` decision for each.  The delayed 60-second re-enable is a
`setTimeout` callback outside this synchronous step. -/
def healthCheckCaps (now : Nat) (s : ControllerState) : ControllerState :=
  s.capabilities.foldl (healthStep now) s

/-- `monitorHealth`: capability health pass, then queue-timeout eviction.
Stale queued tasks are mutated to `failed` (emitted as `task_timeout`,
returned here) and removed from the queue. -/
def monitorHealth (now : Nat) (s : ControllerState) :
    List Task × ControllerState :=
  let s := healthCheckCaps now s
  let stale :=
    s.taskQueue.filter
      (fun t => decide (now - t.createdAt > s.config.taskTimeoutMs))
  let staleMarked :=
    stale.map
      (fun t =>
        { t with
          status := TaskStatus.failed
          error := some "Task timeout in queue" })
  (staleMarked,
    { s with
      taskQueue :=
        s.taskQueue.filter
          (fun t => decide (now - t.createdAt ≤ s.config.taskTimeoutMs)) })

/-- The task-count block of `getStatus`. -/
structure TaskCounts where
  queued : Nat
  active : Nat
  completed : Nat
deriving DecidableEq, Repr

/-- The capability-count block of `getStatus`. -/
structure CapabilityCounts where
  total : Nat
  enabled : Nat
deriving DecidableEq, Repr

/-- The `getStatus` snapshot. -/
structure ControllerStatus where
  running : Bool
  mode : OperationMode
  tasks : TaskCounts
  capabilities : CapabilityCounts
  decisions : Nat
  config : ControllerConfig
deriving DecidableEq, Repr

/-- `getStatus`: note that `tasks.completed` counts executed decisions,
not completed tasks. -/
def getStatus (s : ControllerState) : ControllerStatus :=
  { running := s.isRunning
    mode := s.config.mode
    tasks :=
      { queued := s.taskQueue.length
        active := s.activeTasks.length
        completed := (s.decisions.filter (fun d => d.executed)).length }
    capabilities :=
      { total := s.capabilities.length
        enabled := (s.capabilities.filter (fun c => c.enabled)).length }
    decisions := s.decisions.length
    config := s.config }

/-! ### Service registry (`auto-config.ts`) — the part needed by the
registration claim. -/

/-- Backing-service family of a registry endpoint. -/
inductive ServiceType
  | personaplex
  | agentZero
  | poke
  | mcp
  | webhook
  | channel
deriving DecidableEq, Repr

/-- Endpoint health status (`degraded` is declared but never produced). -/
inductive EndpointStatus
  | unknown
  | checking
  | healthy
  | degraded
  | unhealthy
deriving DecidableEq, Repr

/-- A `ServiceEndpoint` record; the opaque `config` payload is omitted. -/
structure ServiceEndpoint where
  id : String
  name : String
  type : ServiceType
  url : String
  status : EndpointStatus
  lastCheck : Option Nat
  latencyMs : Option Nat
  autoDiscovered : Bool
deriving DecidableEq, Repr

/-- The `config_event` kinds emitted by the registry. -/
inductive ConfigEventType
  | discovered
  | connected
  | disconnected
  | healed
  | probeError
  | configChanged
deriving DecidableEq, Repr

/-- Registry state: the `services` map (insertion-ordered, keyed by id)
and the log of emitted `config_event`s. -/
structure AutoConfigState where
  services : List (String × ServiceEndpoint)
  events : List (ConfigEventType × ServiceEndpoint)
deriving DecidableEq, Repr

/-- `Map.set` on the services map: replace in place when the key exists,
else append. -/
def serviceSet (m : List (String × ServiceEndpoint)) (k : String)
    (v : ServiceEndpoint) : List (String × ServiceEndpoint) :=
  if m.any (fun p => p.1 == k) then
    m.map (fun p => if p.1 == k then (k, v) else p)
  else
    m ++ [(k, v)]

/-- `Map.get` on the services map. -/
def serviceGet (m : List (String × ServiceEndpoint)) (k : String) :
    Option ServiceEndpoint :=
  (m.find? (fun p => p.1 == k)).map (fun p => p.2)

/-- The fields a caller supplies to `registerService`
(`Omit<ServiceEndpoint, "status" | "lastCheck">`). -/
structure ServiceRegistration where
  id : String
  name : String
  type : ServiceType
  url : String
  latencyMs : Option Nat
  autoDiscovered : Bool
deriving DecidableEq, Repr

/-- The endpoint record `registerService` builds from a registration:
`status` reset to `unknown`, `lastCheck` cleared, other fields taken from
the caller. -/
def registeredEndpoint (svc : ServiceRegistration) : ServiceEndpoint :=
  { id := svc.id
    name := svc.name
    type := svc.type
    url := svc.url
    status := EndpointStatus.unknown
    lastCheck := none
    latencyMs := svc.latencyMs
    autoDiscovered := svc.autoDiscovered }

/-- `registerService`: build the endpoint with `status` reset to
`unknown` and `lastCheck` cleared, upsert it by id, and emit a
`config_changed` event. -/
def registerService (svc : ServiceRegistration) (st : AutoConfigState) :
    AutoConfigState :=
  { services :=
      serviceSet st.services (registeredEndpoint svc).id
        (registeredEndpoint svc)
    events :=
      st.events ++ [(ConfigEventType.configChanged, registeredEndpoint svc)] }

/-! ### Derived definitions and concrete scenarios used by the claims -/

/-- The task popped by a dispatch tick, when any. -/
def poppedTask : DispatchResult → Option Task
  | DispatchResult.requeued t => some t
  | DispatchResult.failedNoCap t => some t
  | DispatchResult.dispatched t _ => some t
  | _ => none

/-- The priority of the task dispatched by a tick, when one was. -/
def dispatchedPriority : DispatchResult → Option TaskPriority
  | DispatchResult.dispatched t _ => some t.priority
  | _ => none

/-- The status of the task dispatched by a tick, when one was. -/
def dispatchedStatus : DispatchResult → Option TaskStatus
  | DispatchResult.dispatched t _ => some t.status
  | _ => none

/-- The task re-queued by a no-capability tick, when one was. -/
def requeuedTask : DispatchResult → Option Task
  | DispatchResult.requeued t => some t
  | _ => none

/-- Controller after submitting four tasks in priority order low,
critical, normal, high (each task type served by exactly one of the
default capabilities). -/
def fourSubmitState : ControllerState :=
  let s0 := initController DEFAULT_CONFIG
  let s1 := (submitTask TaskType.voice 0 (some TaskPriority.low) none 0 s0).2
  let s2 := (submitTask TaskType.autonomous 0 (some TaskPriority.critical) none 1 s1).2
  let s3 := (submitTask TaskType.code 0 (some TaskPriority.normal) none 2 s2).2
  (submitTask TaskType.custom 0 (some TaskPriority.high) none 3 s3).2

/-- The priorities dispatched by four successive ticks after the four
submissions. -/
def fourDispatchOrder : List (Option TaskPriority) :=
  let p1 := processTaskQueue 10 fourSubmitState
  let p2 := processTaskQueue 11 p1.2
  let p3 := processTaskQueue 12 p2.2
  let p4 := processTaskQueue 13 p3.2
  [dispatchedPriority p1.1, dispatchedPriority p2.1, dispatchedPriority p3.1,
    dispatchedPriority p4.1]

/-! Scenario for the always-throwing-executor run (retry bound and load
accounting). -/

/-- The `agent-zero-auto` capability with symbolic success rate and
load. -/
def throwCap (r : ℚ) (load : Int) : AgentCapability :=
  { id := "agent-zero-auto"
    name := "Agent Zero Autonomous"
    type := CapType.agentZero
    priority := 2
    enabled := true
    maxConcurrent := 3
    currentLoad := load
    successRate := r
    avgLatencyMs := 500
    tags := ["autonomous", "code", "planning", "execution"] }

/-- Controller state holding one queued task and the one always-throwing
capability. -/
def mkThrowState (t : Task) (r : ℚ) (load : Int) (ds : List Decision)
    (idc : Nat) : ControllerState :=
  { config := DEFAULT_CONFIG
    capabilities := [throwCap r load]
    taskQueue := [t]
    activeTasks := []
    decisions := ds
    isRunning := true
    nextId := idc }

/-- A fresh autonomous task with the given retry budget. -/
def freshThrowTask (m : Nat) : Task :=
  { id := 0
    type := TaskType.autonomous
    input := 0
    priority := TaskPriority.normal
    status := TaskStatus.queued
    assignedTo := none
    createdAt := 0
    startedAt := none
    completedAt := none
    result := none
    error := none
    retryCount := 0
    maxRetries := m }

/-- The shape of the task after one failed execution attempt that was
re-queued by `handleTaskError`. -/
def retriedTask (t : Task) (now : Nat) : Task :=
  { t with
    assignedTo := some "agent-zero-auto"
    status := TaskStatus.queued
    startedAt := some now
    retryCount := t.retryCount + 1 }

/-- The `heal` decision logged for a retried task. -/
def healDecision (idc now : Nat) : Decision :=
  { id := idc
    type := DecisionType.heal
    reason := "Task retry with different capability"
    confidence := 17/20
    timestamp := now
    executed := true
    requiresApproval := false }

/-- The task object at terminal execution failure. -/
def throwFailedTask (t : Task) (err : String) (now : Nat) : Task :=
  { t with
    assignedTo := some "agent-zero-auto"
    status := TaskStatus.failed
    startedAt := some now
    completedAt := some now
    error := some err }

/-- One dispatch tick followed by the executor throwing: the components
are the resulting state, the terminally failed task if the error was
terminal, and whether an execution attempt happened at all. -/
def throwCycle (err : String) (now : Nat) (s : ControllerState) :
    ControllerState × Option Task × Bool :=
  match processTaskQueue now s with
  | (DispatchResult.dispatched task capId, s1) =>
    let r := failDispatched task capId err now s1
    if r.1.status = TaskStatus.failed then (r.2, some r.1, true)
    else (r.2, none, true)
  | (_, s1) => (s1, none, false)

/-- Run the dispatch/throw loop with the given fuel, counting execution
attempts until a terminal failure is emitted. -/
def runThrow (err : String) (now : Nat) : Nat → ControllerState → Nat × Option Task
  | 0, _ => (0, none)
  | fuel + 1, s =>
    match throwCycle err now s with
    | (_, some t, _) => (1, some t)
    | (s1, none, true) =>
      let res1 := runThrow err now fuel s1
      (res1.1 + 1, res1.2)
    | (_, none, false) => (0, none)

/-! Concrete run used for the load-accounting bug and for failure
observability: one task with `maxRetries = 0` whose executor throws. -/

/-- Fresh default controller with one submitted autonomous task carrying
`maxRetries = 0`. -/
def oneShotState : ControllerState :=
  (submitTask TaskType.autonomous 0 none (some 0) 0
    (initController DEFAULT_CONFIG)).2

/-- The terminally failed task emitted by dispatching the one-shot task
into an always-throwing executor. -/
def oneShotFailed : Option Task :=
  match processTaskQueue 1 oneShotState with
  | (DispatchResult.dispatched t capId, s) =>
    some (failDispatched t capId "executor exploded" 2 s).1
  | _ => none

/-- Final controller state of the one-shot throwing run. -/
def oneShotFinal : ControllerState :=
  match processTaskQueue 1 oneShotState with
  | (DispatchResult.dispatched t capId, s) =>
    (failDispatched t capId "executor exploded" 2 s).2
  | (_, s) => s

/-- The `currentLoad` of a capability by id in a state. -/
def loadOf (s : ControllerState) (capId : String) : Option Int :=
  (s.capabilities.find? (fun c => c.id == capId)).map
    (fun c => c.currentLoad)

/-! Scenario for cancellation non-terminality: cancel a queued task, then
let the dispatch loop tick. -/

/-- Fresh default controller with one submitted autonomous task. -/
def preCancelState : ControllerState :=
  (submitTask TaskType.autonomous 0 none none 0
    (initController DEFAULT_CONFIG)).2

/-- The task object returned by that submission. -/
def submittedTask0 : Task :=
  (submitTask TaskType.autonomous 0 none none 0
    (initController DEFAULT_CONFIG)).1

/-- The same controller after `cancelTask` on the submitted task. -/
def cancelledQueuedState : ControllerState :=
  (cancelTask 0 preCancelState).2

/-- The dispatch tick taken after the cancellation. -/
def tickAfterCancel : DispatchResult × ControllerState :=
  processTaskQueue 1 cancelledQueuedState

/-! Scenario for the no-capability requeue: a critical task ahead of a
low task, with no capability able to serve either. -/

def critNoCapTask : Task :=
  { id := 0
    type := TaskType.voice
    input := 0
    priority := TaskPriority.critical
    status := TaskStatus.queued
    assignedTo := none
    createdAt := 0
    startedAt := none
    completedAt := none
    result := none
    error := none
    retryCount := 0
    maxRetries := 1 }

def lowNoCapTask : Task :=
  { id := 1
    type := TaskType.voice
    input := 0
    priority := TaskPriority.low
    status := TaskStatus.queued
    assignedTo := none
    createdAt := 0
    startedAt := none
    completedAt := none
    result := none
    error := none
    retryCount := 0
    maxRetries := 0 }

/-- A controller with a critical and a low task queued and no
capabilities at all. -/
def noCapState : ControllerState :=
  { config := DEFAULT_CONFIG
    capabilities := []
    taskQueue := [critNoCapTask, lowNoCapTask]
    activeTasks := []
    decisions := []
    isRunning := true
    nextId := 2 }

/-- A controller with only the low-priority retry-exhausted task queued
and no capabilities. -/
def noCapFailState : ControllerState :=
  { noCapState with taskQueue := [lowNoCapTask] }

/-! Scenario for the status-counter divergence: one mode change, no
tasks. -/

/-- Fresh default controller after a single `setMode("autonomous")`. -/
def oneDecisionState : ControllerState :=
  setMode OperationMode.autonomous 0 (initController DEFAULT_CONFIG)

/-- Number of key occurrences in the services map. -/
def serviceKeyCount (m : List (String × ServiceEndpoint)) (k : String) :
    Nat :=
  (m.filter (fun p => p.1 == k)).length

/-- Concrete registrations used by the upsert witness. -/
def svcRegA : ServiceRegistration :=
  { id := "svc-1"
    name := "Service One"
    type := ServiceType.webhook
    url := "http://old.example"
    latencyMs := none
    autoDiscovered := false }

def svcRegB : ServiceRegistration :=
  { id := "svc-1"
    name := "Service One Again"
    type := ServiceType.webhook
    url := "http://new.example"
    latencyMs := none
    autoDiscovered := false }

/-! ### Priority-queue characterization -/

/-- The sub-sequence of tasks of one priority class, in order. -/
def classTasks (p : TaskPriority) (ts : List Task) : List Task :=
  ts.filter (fun t => t.priority == p)

/-- The stable class-ordered arrangement of a submission sequence:
all critical tasks in submission order, then all high, normal, low. -/
def stableQueue (ts : List Task) : List Task :=
  classTasks TaskPriority.critical ts ++ classTasks TaskPriority.high ts ++
    classTasks TaskPriority.normal ts ++ classTasks TaskPriority.low ts

/-- The queue obtained by submitting the given tasks in order into an
empty queue. -/
def queueOfSubmissions (ts : List Task) : List Task :=
  ts.foldl (fun q t => insertTaskByPriority t q) []

lemma insertTaskByPriority_append_le (t : Task) (l1 l2 : List Task)
    (h : ∀ x ∈ l1, priorityOrder x.priority ≤ priorityOrder t.priority) :
    insertTaskByPriority t (l1 ++ l2) = l1 ++ insertTaskByPriority t l2 := by
  induction l1 with
  | nil => simp
  | cons x xs ih =>
    have hx : ¬ priorityOrder t.priority < priorityOrder x.priority :=
      Nat.not_lt.mpr (h x (by simp))
    show insertTaskByPriority t (x :: (xs ++ l2)) =
      x :: (xs ++ insertTaskByPriority t l2)
    simp only [insertTaskByPriority, if_neg hx]
    exact congrArg (fun l => x :: l)
      (ih (fun y hy => h y (List.mem_cons_of_mem x hy)))

lemma insertTaskByPriority_all_gt (t : Task) (l : List Task)
    (h : ∀ x ∈ l, priorityOrder t.priority < priorityOrder x.priority) :
    insertTaskByPriority t l = t :: l := by
  cases l with
  | nil => rfl
  | cons x xs =>
    simp only [insertTaskByPriority, if_pos (h x (by simp))]

lemma insertTaskByPriority_middle (t : Task) (l1 l2 : List Task)
    (h1 : ∀ x ∈ l1, priorityOrder x.priority ≤ priorityOrder t.priority)
    (h2 : ∀ x ∈ l2, priorityOrder t.priority < priorityOrder x.priority) :
    insertTaskByPriority t (l1 ++ l2) = l1 ++ t :: l2 := by
  rw [insertTaskByPriority_append_le t l1 l2 h1,
    insertTaskByPriority_all_gt t l2 h2]

lemma mem_classTasks {p : TaskPriority} {ts : List Task} {x : Task}
    (hx : x ∈ classTasks p ts) : x.priority = p := by
  have h2 := (List.mem_filter.mp hx).2
  simpa using h2

lemma classTasks_concat (p : TaskPriority) (ts : List Task) (t : Task) :
    classTasks p (ts ++ [t]) =
      classTasks p ts ++ (if t.priority = p then [t] else []) := by
  by_cases h : t.priority = p <;> simp [classTasks, List.filter_append, h]

lemma insert_stableQueue (t : Task) (ts : List Task) :
    insertTaskByPriority t (stableQueue ts) = stableQueue (ts ++ [t]) := by
  cases hp : t.priority with
  | critical =>
    have e1 : stableQueue ts =
        classTasks TaskPriority.critical ts ++
          (classTasks TaskPriority.high ts ++
            (classTasks TaskPriority.normal ts ++
              classTasks TaskPriority.low ts)) := by
      simp [stableQueue, List.append_assoc]
    have step := insertTaskByPriority_middle t
      (classTasks TaskPriority.critical ts)
      (classTasks TaskPriority.high ts ++
        (classTasks TaskPriority.normal ts ++ classTasks TaskPriority.low ts))
      (by
        intro x hx
        rw [hp, mem_classTasks hx])
      (by
        intro x hx
        rw [hp]
        rcases List.mem_append.mp hx with hx | hx
        · rw [mem_classTasks hx] <;> decide
        rcases List.mem_append.mp hx with hx | hx
        · rw [mem_classTasks hx] <;> decide
        · rw [mem_classTasks hx] <;> decide)
    rw [e1, step]
    simp [stableQueue, classTasks_concat, hp, List.append_assoc]
  | high =>
    have e1 : stableQueue ts =
        (classTasks TaskPriority.critical ts ++
          classTasks TaskPriority.high ts) ++
          (classTasks TaskPriority.normal ts ++
            classTasks TaskPriority.low ts) := by
      simp [stableQueue, List.append_assoc]
    have step := insertTaskByPriority_middle t
      (classTasks TaskPriority.critical ts ++ classTasks TaskPriority.high ts)
      (classTasks TaskPriority.normal ts ++ classTasks TaskPriority.low ts)
      (by
        intro x hx
        rw [hp]
        rcases List.mem_append.mp hx with hx | hx
        · rw [mem_classTasks hx] <;> decide
        · rw [mem_classTasks hx] <;> decide)
      (by
        intro x hx
        rw [hp]
        rcases List.mem_append.mp hx with hx | hx
        · rw [mem_classTasks hx] <;> decide
        · rw [mem_classTasks hx] <;> decide)
    rw [e1, step]
    simp [stableQueue, classTasks_concat, hp, List.append_assoc]
  | normal =>
    have e1 : stableQueue ts =
        (classTasks TaskPriority.critical ts ++
          (classTasks TaskPriority.high ts ++
            classTasks TaskPriority.normal ts)) ++
          classTasks TaskPriority.low ts := by
      simp [stableQueue, List.append_assoc]
    have step := insertTaskByPriority_middle t
      (classTasks TaskPriority.critical ts ++
        (classTasks TaskPriority.high ts ++ classTasks TaskPriority.normal ts))
      (classTasks TaskPriority.low ts)
      (by
        intro x hx
        rw [hp]
        rcases List.mem_append.mp hx with hx | hx
        · rw [mem_classTasks hx] <;> decide
        rcases List.mem_append.mp hx with hx | hx
        · rw [mem_classTasks hx] <;> decide
        · rw [mem_classTasks hx] <;> decide)
      (by
        intro x hx
        rw [hp, mem_classTasks hx] <;> decide)
    rw [e1, step]
    simp [stableQueue, classTasks_concat, hp, List.append_assoc]
  | low =>
    have e1 : stableQueue ts =
        (classTasks TaskPriority.critical ts ++
          (classTasks TaskPriority.high ts ++
            (classTasks TaskPriority.normal ts ++
              classTasks TaskPriority.low ts))) ++ [] := by
      simp [stableQueue, List.append_assoc]
    have step := insertTaskByPriority_middle t
      (classTasks TaskPriority.critical ts ++
        (classTasks TaskPriority.high ts ++
          (classTasks TaskPriority.normal ts ++
            classTasks TaskPriority.low ts)))
      []
      (by
        intro x hx
        rw [hp]
        rcases List.mem_append.mp hx with hx | hx
        · rw [mem_classTasks hx] <;> decide
        rcases List.mem_append.mp hx with hx | hx
        · rw [mem_classTasks hx] <;> decide
        rcases List.mem_append.mp hx with hx | hx
        · rw [mem_classTasks hx] <;> decide
        · rw [mem_classTasks hx] <;> decide)
      (by intro x hx; cases hx)
    rw [e1, step]
    simp [stableQueue, classTasks_concat, hp, List.append_assoc]

lemma queueOfSubmissions_concat (ts : List Task) (t : Task) :
    queueOfSubmissions (ts ++ [t]) =
      insertTaskByPriority t (queueOfSubmissions ts) := by
  simp [queueOfSubmissions, List.foldl_append]

lemma queueOfSubmissions_eq_stableQueue (ts : List Task) :
    queueOfSubmissions ts = stableQueue ts := by
  induction ts using List.reverseRecOn with
  | nil => rfl
  | append_singleton ts t ih =>
    rw [queueOfSubmissions_concat, ih, insert_stableQueue]

/-! ### Helper lemmas about the controller operations -/

lemma findTask_filter_ne (l : List Task) (taskId : Nat) :
    findTask (l.filter (fun t => t.id != taskId)) taskId = none := by
  rw [findTask, List.find?_eq_none]
  intro x hx
  have hne := (List.mem_filter.mp hx).2
  simpa using hne

lemma selectCapability_of_candidates_nil (task : Task) (now : Nat)
    (s : ControllerState) (h : candidateList task s.capabilities = []) :
    selectCapability task now s = (none, s) := by
  rw [selectCapability, h]

/-- Characterization of a dispatch tick that finds no capability for a
task that still has retry budget: the task is pushed to the back of the
whole queue with `retryCount` incremented. -/
lemma processTaskQueue_noCap_requeue {now : Nat} {s : ControllerState}
    {t0 : Task} {rest : List Task}
    (hq : s.taskQueue = t0 :: rest)
    (hcap : s.activeTasks.length < s.config.maxConcurrentTasks)
    (hsel : candidateList t0 s.capabilities = [])
    (hretry : t0.retryCount < t0.maxRetries) :
    processTaskQueue now s =
      (DispatchResult.requeued { t0 with retryCount := t0.retryCount + 1 },
        { s with
          taskQueue := rest ++ [{ t0 with retryCount := t0.retryCount + 1 }] }) := by
  rw [processTaskQueue, if_neg (Nat.not_le.mpr hcap), hq]
  simp only [selectCapability_of_candidates_nil, hsel, hretry, if_pos]

/-- Characterization of a dispatch tick that finds no capability for a
task with exhausted retries: the task is marked failed without touching
`completedAt`, and dropped from the controller state. -/
lemma processTaskQueue_noCap_fail {now : Nat} {s : ControllerState}
    {t0 : Task} {rest : List Task}
    (hq : s.taskQueue = t0 :: rest)
    (hcap : s.activeTasks.length < s.config.maxConcurrentTasks)
    (hsel : candidateList t0 s.capabilities = [])
    (hretry : ¬ t0.retryCount < t0.maxRetries) :
    processTaskQueue now s =
      (DispatchResult.failedNoCap
          { t0 with
            status := TaskStatus.failed
            error := some "No capable agent available" },
        { s with taskQueue := rest }) := by
  rw [processTaskQueue, if_neg (Nat.not_le.mpr hcap), hq]
  simp only [selectCapability_of_candidates_nil, hsel]
  rw [if_neg hretry]

/-- Every task a dispatch tick hands to a capability is handed over with
status `running` — no status guard excludes cancelled tasks. -/
lemma dispatched_status_running {now : Nat} {s : ControllerState}
    {st : TaskStatus}
    (h : dispatchedStatus (processTaskQueue now s).1 = some st) :
    st = TaskStatus.running := by
  rw [processTaskQueue] at h
  by_cases hcap : s.activeTasks.length ≥ s.config.maxConcurrentTasks
  · rw [if_pos hcap] at h
    simp [dispatchedStatus] at h
  · rw [if_neg hcap] at h
    cases hq : s.taskQueue with
    | nil =>
      rw [hq] at h
      simp [dispatchedStatus] at h
    | cons t0 rest =>
      rw [hq] at h
      simp only [] at h
      rcases hsel : selectCapability t0 now { s with taskQueue := rest } with ⟨o, s1⟩
      rw [hsel] at h
      cases o with
      | none =>
        simp only [] at h
        by_cases hr : t0.retryCount < t0.maxRetries
        · rw [if_pos hr] at h
          simp [dispatchedStatus] at h
        · rw [if_neg hr] at h
          simp [dispatchedStatus] at h
      | some cap =>
        simp only [] at h
        simp only [dispatchedStatus, Option.some.injEq] at h
        exact h.symm

/-- A task emitted by the requeue branch always satisfies the retry
bound. -/
lemma requeued_retry_bound {now : Nat} {s : ControllerState} {t : Task}
    (h : requeuedTask (processTaskQueue now s).1 = some t) :
    t.retryCount ≤ t.maxRetries := by
  rw [processTaskQueue] at h
  by_cases hcap : s.activeTasks.length ≥ s.config.maxConcurrentTasks
  · rw [if_pos hcap] at h
    simp [requeuedTask] at h
  · rw [if_neg hcap] at h
    cases hq : s.taskQueue with
    | nil =>
      rw [hq] at h
      simp [requeuedTask] at h
    | cons t0 rest =>
      rw [hq] at h
      simp only [] at h
      rcases hsel : selectCapability t0 now { s with taskQueue := rest } with ⟨o, s1⟩
      rw [hsel] at h
      cases o with
      | none =>
        simp only [] at h
        by_cases hr : t0.retryCount < t0.maxRetries
        · rw [if_pos hr] at h
          simp only [requeuedTask, Option.some.injEq] at h
          subst h
          exact hr
        · rw [if_neg hr] at h
          simp [requeuedTask] at h
      | some cap =>
        simp only [] at h
        simp [requeuedTask] at h

lemma handleTaskError_terminal {task : Task} {capId err : String}
    {now : Nat} {s : ControllerState}
    (h : ¬ task.retryCount < task.maxRetries) :
    handleTaskError task capId err now s =
      ({ task with
          status := TaskStatus.failed
          completedAt := some now
          error := some err },
        { s with
          capabilities :=
            updateCap s.capabilities capId
              (fun c =>
                { c with
                  currentLoad := c.currentLoad - 1
                  successRate := c.successRate * (9/10) })
          activeTasks :=
            s.activeTasks.filter (fun t => t.id != task.id) }) := by
  rw [handleTaskError, if_neg h]

lemma handleTaskError_retry_task {task : Task} {capId err : String}
    {now : Nat} {s : ControllerState}
    (h : task.retryCount < task.maxRetries) :
    (handleTaskError task capId err now s).1 =
      { task with
        retryCount := task.retryCount + 1
        status := TaskStatus.queued } := by
  rw [handleTaskError, if_pos h]

lemma handleTaskError_retry_bound {task : Task} {capId err : String}
    {now : Nat} {s : ControllerState}
    (h : task.retryCount ≤ task.maxRetries) :
    (handleTaskError task capId err now s).1.retryCount ≤
      (handleTaskError task capId err now s).1.maxRetries := by
  by_cases hr : task.retryCount < task.maxRetries
  · rw [handleTaskError_retry_task hr]
    exact hr
  · rw [handleTaskError_terminal hr]
    exact h

lemma setTaskStatus_mem_queue {s : ControllerState} {taskId : Nat}
    {st : TaskStatus} {u : Task}
    (hu : u ∈ (setTaskStatus s taskId st).taskQueue) :
    ∃ t0 ∈ s.taskQueue, u.completedAt = t0.completedAt := by
  obtain ⟨x, hx, he⟩ := List.mem_map.mp hu
  refine ⟨x, hx, ?_⟩
  by_cases hid : x.id == taskId <;> simp [hid] at he <;> rw [← he]

lemma setTaskStatus_mem_active {s : ControllerState} {taskId : Nat}
    {st : TaskStatus} {u : Task}
    (hu : u ∈ (setTaskStatus s taskId st).activeTasks) :
    ∃ t0 ∈ s.activeTasks, u.completedAt = t0.completedAt := by
  obtain ⟨x, hx, he⟩ := List.mem_map.mp hu
  refine ⟨x, hx, ?_⟩
  by_cases hid : x.id == taskId <;> simp [hid] at he <;> rw [← he]

lemma setTaskStatus_id_status {s : ControllerState} {taskId : Nat}
    {st : TaskStatus} {u : Task}
    (hu : u ∈ (setTaskStatus s taskId st).taskQueue ∨
      u ∈ (setTaskStatus s taskId st).activeTasks)
    (hid : u.id = taskId) : u.status = st := by
  rcases hu with hu | hu <;>
  · obtain ⟨x, hx, he⟩ := List.mem_map.mp hu
    by_cases hxi : x.id = taskId
    · simp [hxi] at he
      rw [← he]
    · simp [hxi] at he
      rw [← he] at hid
      exact absurd hid hxi

lemma cancelTask_queue_completedAt {taskId : Nat} {s : ControllerState}
    {u : Task} (hu : u ∈ (cancelTask taskId s).2.taskQueue) :
    ∃ t0 ∈ s.taskQueue, u.completedAt = t0.completedAt := by
  rw [cancelTask] at hu
  split at hu
  · exact ⟨u, hu, rfl⟩
  · split at hu
    · exact setTaskStatus_mem_queue hu
    · exact ⟨u, hu, rfl⟩

lemma healthStep_preserves (now : Nat) (acc : ControllerState)
    (cap : AgentCapability) :
    (healthStep now acc cap).taskQueue = acc.taskQueue ∧
      (healthStep now acc cap).config = acc.config := by
  rw [healthStep]
  split <;> simp [makeDecision]

lemma healthFold_preserves (now : Nat) (caps : List AgentCapability) :
    ∀ acc : ControllerState,
      (caps.foldl (healthStep now) acc).taskQueue = acc.taskQueue ∧
        (caps.foldl (healthStep now) acc).config = acc.config := by
  induction caps with
  | nil => exact fun acc => ⟨rfl, rfl⟩
  | cons c cs ih =>
    intro acc
    rw [List.foldl_cons]
    obtain ⟨i1, i2⟩ := ih (healthStep now acc c)
    obtain ⟨h1, h2⟩ := healthStep_preserves now acc c
    exact ⟨i1.trans h1, i2.trans h2⟩

lemma healthCheckCaps_taskQueue_config (now : Nat) (s : ControllerState) :
    (healthCheckCaps now s).taskQueue = s.taskQueue ∧
      (healthCheckCaps now s).config = s.config := by
  rw [healthCheckCaps]
  exact healthFold_preserves now s.capabilities s

/-- Every task evicted by the queue-timeout pass is emitted as failed
with the timeout error and with `completedAt` untouched. -/
lemma monitorHealth_evicted {now : Nat} {s : ControllerState} {t : Task}
    (ht : t ∈ (monitorHealth now s).1) :
    t.status = TaskStatus.failed ∧
      t.error = some "Task timeout in queue" ∧
      ∃ t0 ∈ s.taskQueue, t.completedAt = t0.completedAt := by
  rw [monitorHealth] at ht
  simp only at ht
  obtain ⟨x, hx, he⟩ := List.mem_map.mp ht
  have hx2 : x ∈ s.taskQueue := by
    have := (List.mem_filter.mp hx).1
    rwa [(healthCheckCaps_taskQueue_config now s).1] at this
  subst he
  exact ⟨rfl, rfl, x, hx2, rfl⟩

/-! ### Service-registry map lemmas -/

lemma serviceKeyCount_map_set (m : List (String × ServiceEndpoint))
    (k : String) (v : ServiceEndpoint) :
    serviceKeyCount (m.map (fun p => if p.1 == k then (k, v) else p)) k =
      serviceKeyCount m k := by
  induction m with
  | nil => rfl
  | cons p ps ih =>
    by_cases hk : p.1 = k
    · simpa [serviceKeyCount, hk] using ih
    · simpa [serviceKeyCount, hk] using ih

lemma serviceKeyCount_zero_of_not_any (m : List (String × ServiceEndpoint))
    (k : String) (h : m.any (fun p => p.1 == k) = false) :
    serviceKeyCount m k = 0 := by
  induction m with
  | nil => rfl
  | cons p ps ih =>
    rw [List.any_cons, Bool.or_eq_false_iff] at h
    simpa [serviceKeyCount, List.filter_cons, h.1] using ih h.2

lemma serviceKeyCount_pos_of_any (m : List (String × ServiceEndpoint))
    (k : String) (h : m.any (fun p => p.1 == k) = true) :
    1 ≤ serviceKeyCount m k := by
  obtain ⟨p, hp, hpk⟩ := List.any_eq_true.mp h
  have hmem : p ∈ m.filter (fun p => p.1 == k) :=
    List.mem_filter.mpr ⟨hp, hpk⟩
  exact List.length_pos_of_mem hmem

lemma serviceKeyCount_set (m : List (String × ServiceEndpoint))
    (k : String) (v : ServiceEndpoint)
    (h : serviceKeyCount m k ≤ 1) :
    serviceKeyCount (serviceSet m k v) k = 1 := by
  rw [serviceSet]
  by_cases ha : m.any (fun p => p.1 == k) = true
  · rw [if_pos ha, serviceKeyCount_map_set]
    have := serviceKeyCount_pos_of_any m k ha
    omega
  · rw [if_neg ha]
    have ha2 : m.any (fun p => p.1 == k) = false :=
      Bool.eq_false_iff.mpr ha
    have h0 := serviceKeyCount_zero_of_not_any m k ha2
    rw [serviceKeyCount] at h0 ⊢
    rw [List.filter_append, List.length_append, h0]
    simp

lemma find_map_set (m : List (String × ServiceEndpoint))
    (k : String) (v : ServiceEndpoint)
    (h : m.any (fun p => p.1 == k) = true) :
    (m.map (fun p => if p.1 == k then (k, v) else p)).find?
      (fun p => p.1 == k) = some (k, v) := by
  induction m with
  | nil => simp at h
  | cons p ps ih =>
    rw [List.map_cons]
    by_cases hk : (p.1 == k) = true
    · rw [if_pos hk, List.find?_cons]
      simp
    · rw [List.any_cons] at h
      have h2 : ps.any (fun p => p.1 == k) = true := by
        rcases Bool.or_eq_true_iff.mp h with h1 | h1
        · exact absurd h1 hk
        · exact h1
      rw [if_neg hk, List.find?_cons, Bool.eq_false_iff.mpr hk]
      exact ih h2

lemma find_append_single (m : List (String × ServiceEndpoint))
    (k : String) (v : ServiceEndpoint)
    (h : m.any (fun p => p.1 == k) = false) :
    (m ++ [(k, v)]).find? (fun p => p.1 == k) = some (k, v) := by
  induction m with
  | nil => simp
  | cons p ps ih =>
    rw [List.any_cons, Bool.or_eq_false_iff] at h
    rw [List.cons_append, List.find?_cons, h.1]
    exact ih h.2

lemma serviceGet_set (m : List (String × ServiceEndpoint))
    (k : String) (v : ServiceEndpoint) :
    serviceGet (serviceSet m k v) k = some v := by
  rw [serviceSet, serviceGet]
  by_cases ha : m.any (fun p => p.1 == k) = true
  · rw [if_pos ha, find_map_set m k v ha]
    rfl
  · rw [if_neg ha,
      find_append_single m k v (Bool.eq_false_iff.mpr ha)]
    rfl

/-! ### The always-throwing execution loop -/

lemma throwCycle_retry (t : Task) (r : ℚ) (load : Int) (ds : List Decision)
    (idc : Nat) (err : String) (now : Nat)
    (htype : t.type = TaskType.autonomous)
    (hload : load < 3)
    (hretry : t.retryCount < t.maxRetries) :
    throwCycle err now (mkThrowState t r load ds idc) =
      (mkThrowState (retriedTask t now) (r * (9/10)) (load - 1)
        (ds ++ [healDecision idc now]) (idc + 1), none, true) := by
  simp [throwCycle, processTaskQueue, mkThrowState, DEFAULT_CONFIG,
    selectCapability, candidateList, matchesTaskType, typeMapping,
    sortByScoreDesc, insertByScore, failDispatched, handleTaskError,
    updateCap, makeDecision, insertTaskByPriority, retriedTask,
    healDecision, throwCap, calculateConfidence, htype, hload, hretry]

lemma throwCycle_fail (t : Task) (r : ℚ) (load : Int) (ds : List Decision)
    (idc : Nat) (err : String) (now : Nat)
    (htype : t.type = TaskType.autonomous)
    (hload : load < 3)
    (hterm : ¬ t.retryCount < t.maxRetries) :
    throwCycle err now (mkThrowState t r load ds idc) =
      ({ config := DEFAULT_CONFIG
         capabilities := [throwCap (r * (9/10)) (load - 1)]
         taskQueue := []
         activeTasks := []
         decisions := ds
         isRunning := true
         nextId := idc },
        some (throwFailedTask t err now), true) := by
  simp [throwCycle, processTaskQueue, mkThrowState, DEFAULT_CONFIG,
    selectCapability, candidateList, matchesTaskType, typeMapping,
    sortByScoreDesc, insertByScore, failDispatched, handleTaskError,
    updateCap, makeDecision, insertTaskByPriority, throwFailedTask,
    throwCap, calculateConfidence, htype, hload, hterm]

lemma runThrow_exhausts (err : String) (now : Nat) :
    ∀ (d : Nat) (t : Task) (r : ℚ) (load : Int) (ds : List Decision)
      (idc : Nat),
      t.type = TaskType.autonomous → load ≤ 0 →
      t.maxRetries = t.retryCount + d →
      ∃ tf : Task,
        runThrow err now (d + 1) (mkThrowState t r load ds idc) =
          (d + 1, some tf) ∧
        tf.status = TaskStatus.failed ∧ tf.error = some err ∧
        tf.completedAt = some now ∧
        tf.retryCount = t.maxRetries ∧ tf.maxRetries = t.maxRetries := by
  intro d
  induction d with
  | zero =>
    intro t r load ds idc htype hload hmr
    have hterm : ¬ t.retryCount < t.maxRetries := by omega
    have hl3 : load < 3 := by omega
    refine ⟨throwFailedTask t err now, ?_, rfl, rfl, rfl, ?_, rfl⟩
    · rw [runThrow, throwCycle_fail t r load ds idc err now htype hl3 hterm]
    · show t.retryCount = t.maxRetries
      omega
  | succ d ih =>
    intro t r load ds idc htype hload hmr
    have hretry : t.retryCount < t.maxRetries := by omega
    have hl3 : load < 3 := by omega
    obtain ⟨tf, heq, h1, h2, h3, h4, h5⟩ :=
      ih (retriedTask t now) (r * (9/10)) (load - 1)
        (ds ++ [healDecision idc now]) (idc + 1)
        (by simp [retriedTask, htype]) (by omega)
        (by simp only [retriedTask]; omega)
    refine ⟨tf, ?_, h1, h2, h3, ?_, ?_⟩
    · rw [runThrow, throwCycle_retry t r load ds idc err now htype hl3 hretry]
      simp only [heq]
    · rw [h4]
      simp [retriedTask]
    · rw [h5]
      simp [retriedTask]

/-- Whatever a dispatch tick pops — to requeue, fail or dispatch — is
the head of the queue, with id and priority unchanged. -/
lemma popped_is_head {now : Nat} {s : ControllerState} {t : Task}
    (h : poppedTask (processTaskQueue now s).1 = some t) :
    ∃ t0 rest, s.taskQueue = t0 :: rest ∧ t.id = t0.id ∧
      t.priority = t0.priority := by
  rw [processTaskQueue] at h
  by_cases hcap : s.activeTasks.length ≥ s.config.maxConcurrentTasks
  · rw [if_pos hcap] at h
    simp [poppedTask] at h
  · rw [if_neg hcap] at h
    cases hq : s.taskQueue with
    | nil =>
      rw [hq] at h
      simp [poppedTask] at h
    | cons t0 rest =>
      rw [hq] at h
      simp only [] at h
      rcases hsel : selectCapability t0 now { s with taskQueue := rest }
        with ⟨o, s1⟩
      rw [hsel] at h
      cases o with
      | none =>
        simp only [] at h
        by_cases hr : t0.retryCount < t0.maxRetries
        · rw [if_pos hr] at h
          simp only [poppedTask, Option.some.injEq] at h
          exact ⟨t0, rest, rfl, by rw [← h], by rw [← h]⟩
        · rw [if_neg hr] at h
          simp only [poppedTask, Option.some.injEq] at h
          exact ⟨t0, rest, rfl, by rw [← h], by rw [← h]⟩
      | some cap =>
        simp only [] at h
        simp only [poppedTask, Option.some.injEq] at h
        exact ⟨t0, rest, rfl, by rw [← h], by rw [← h]⟩

/-! ### Claim theorems -/

/-- C1: submissions inserted by `insertTaskByPriority` always form the
stable class-ordered queue — strict priority-class order critical, high,
normal, low, FIFO within each class — and the dispatch loop pops the
head; in particular submitting four tasks in order low, critical, normal,
high yields dispatch order critical, high, normal, low. -/
theorem dispatch_priority_order :
    (∀ ts : List Task, queueOfSubmissions ts = stableQueue ts) ∧
    (∀ (now : Nat) (s : ControllerState) (t : Task),
      poppedTask (processTaskQueue now s).1 = some t →
      ∃ t0 rest, s.taskQueue = t0 :: rest ∧ t.id = t0.id ∧
        t.priority = t0.priority) ∧
    fourDispatchOrder =
      [some TaskPriority.critical, some TaskPriority.high,
        some TaskPriority.normal, some TaskPriority.low] :=
  ⟨queueOfSubmissions_eq_stableQueue,
    fun now s t h => popped_is_head h, by decide⟩

/-- Witness for the head-popping part of the priority-dispatch theorem at
a concrete tick. -/
theorem dispatch_priority_order_witness :
    ∃ t0 rest, noCapState.taskQueue = t0 :: rest ∧
      ({ critNoCapTask with retryCount := 1 } : Task).id = t0.id ∧
      ({ critNoCapTask with retryCount := 1 } : Task).priority =
        t0.priority :=
  dispatch_priority_order.2.1 0 noCapState
    { critNoCapTask with retryCount := 1 } (by decide)

/-- C2: a task with retry budget `m` whose assigned capability always
throws is executed exactly `m + 1` times, then ends terminally failed
with `retryCount = m = maxRetries`; moreover the two places that change
`retryCount` (the no-capability requeue and `handleTaskError`) keep
`retryCount ≤ maxRetries`. -/
theorem retry_bound_always_throwing :
    (∀ (m idc now : Nat) (r : ℚ) (ds : List Decision) (err : String),
      ∃ tf : Task,
        runThrow err now (m + 1)
            (mkThrowState (freshThrowTask m) r 0 ds idc) =
          (m + 1, some tf) ∧
        tf.status = TaskStatus.failed ∧ tf.error = some err ∧
        tf.retryCount = m ∧ tf.maxRetries = m ∧
        tf.retryCount ≤ tf.maxRetries) ∧
    (∀ (now : Nat) (s : ControllerState) (t : Task),
      requeuedTask (processTaskQueue now s).1 = some t →
      t.retryCount ≤ t.maxRetries) ∧
    (∀ (task : Task) (capId err : String) (now : Nat)
      (s : ControllerState),
      task.retryCount ≤ task.maxRetries →
      (handleTaskError task capId err now s).1.retryCount ≤
        (handleTaskError task capId err now s).1.maxRetries) := by
  refine ⟨?_, fun now s t h => requeued_retry_bound h,
    fun task capId err now s h => handleTaskError_retry_bound h⟩
  intro m idc now r ds err
  obtain ⟨tf, heq, h1, h2, h3, h4, h5⟩ :=
    runThrow_exhausts err now m (freshThrowTask m) r 0 ds idc rfl
      (le_refl 0) (by simp [freshThrowTask])
  refine ⟨tf, heq, h1, h2, h4, h5, ?_⟩
  rw [h4, h5]

/-- Witness for the retry-bound theorem: the requeue emitted by a
concrete no-capability tick and a concrete `handleTaskError` call both
satisfy the bound. -/
theorem retry_bound_always_throwing_witness :
    ({ critNoCapTask with retryCount := 1 } : Task).retryCount ≤
      ({ critNoCapTask with retryCount := 1 } : Task).maxRetries ∧
    (handleTaskError (freshThrowTask 2) "agent-zero-auto" "boom" 5
        (mkThrowState (freshThrowTask 2) 1 0 [] 0)).1.retryCount ≤
      (handleTaskError (freshThrowTask 2) "agent-zero-auto" "boom" 5
        (mkThrowState (freshThrowTask 2) 1 0 [] 0)).1.maxRetries :=
  ⟨retry_bound_always_throwing.2.1 0 noCapState
      { critNoCapTask with retryCount := 1 } (by decide),
    retry_bound_always_throwing.2.2 (freshThrowTask 2) "agent-zero-auto"
      "boom" 5 (mkThrowState (freshThrowTask 2) 1 0 [] 0) (by decide)⟩

/-- C3 (code bug): a single dispatched task whose executor throws has the
capability's `currentLoad` decremented twice — once by the `finally`
block of `executeTask` and once more by `handleTaskError` — driving it
from 0 to -1 although no task is in flight afterwards. -/
theorem currentLoad_double_decrement_on_throw :
    loadOf oneShotState "agent-zero-auto" = some 0 ∧
    oneShotFailed.map (fun t => t.status) = some TaskStatus.failed ∧
    loadOf oneShotFinal "agent-zero-auto" = some (-1) ∧
    oneShotFinal.activeTasks = [] := by decide

/-- C4 counterexample: after `cancelTask` on a queued task its status is
cancelled, yet the very next dispatch tick pops it and sets its status to
running — a later controller step changes the status of a cancelled
task. -/
theorem cancelled_task_redispatched :
    cancelledQueuedState.taskQueue.map (fun t => t.status) =
      [TaskStatus.cancelled] ∧
    dispatchedStatus tickAfterCancel.1 = some TaskStatus.running := by
  decide

/-- C4 (amended): `cancelTask` marks any non-completed/non-failed task
cancelled and returns true, but leaves it in the queue, and the dispatch
loop pops with no status guard: whatever task it dispatches — a cancelled
one included — gets status running.  Cancellation is terminal only for
tasks never popped again. -/
theorem cancelTask_not_terminal :
    (∀ (s : ControllerState) (taskId : Nat) (t : Task),
      getTask s taskId = some t →
      t.status ≠ TaskStatus.completed → t.status ≠ TaskStatus.failed →
      (cancelTask taskId s).1 = true ∧
      (∀ u : Task,
        (u ∈ (cancelTask taskId s).2.taskQueue ∨
          u ∈ (cancelTask taskId s).2.activeTasks) →
        u.id = taskId → u.status = TaskStatus.cancelled)) ∧
    (∀ (now : Nat) (s : ControllerState) (st : TaskStatus),
      dispatchedStatus (processTaskQueue now s).1 = some st →
      st = TaskStatus.running) := by
  constructor
  · intro s taskId t hget h1 h2
    rw [cancelTask, hget]
    simp only []
    rw [if_pos ⟨h1, h2⟩]
    exact ⟨rfl, fun u hu hid => setTaskStatus_id_status hu hid⟩
  · intro now s st h
    exact dispatched_status_running h

/-- Witness for the amended cancellation theorem at the concrete
submit-then-cancel scenario. -/
theorem cancelTask_not_terminal_witness :
    (cancelTask 0 preCancelState).1 = true ∧
    TaskStatus.running = TaskStatus.running :=
  ⟨(cancelTask_not_terminal.1 preCancelState 0 submittedTask0 (by decide)
      (by decide) (by decide)).1,
    cancelTask_not_terminal.2 1 cancelledQueuedState TaskStatus.running
      (by decide)⟩

/-- C5 counterexample: a task cancelled via `cancelTask` is in the
terminal status cancelled, yet `completedAt` is not set — refuting
"completedAt set iff status ∈ {completed, failed, cancelled}". -/
theorem cancelled_without_completedAt :
    (getTask cancelledQueuedState 0).map
      (fun t => (t.status, t.completedAt)) =
      some (TaskStatus.cancelled, none) := by decide

/-- C5 (amended): `completedAt` is set exactly by the two execution-end
paths — executor success and terminal `handleTaskError` — while the
no-capability failure, the queue-timeout eviction and `cancelTask` leave
`completedAt` untouched on tasks they mark terminal. -/
theorem completedAt_set_only_by_execution_paths :
    (∀ (task : Task) (capId : String) (res startTime now : Nat)
      (s : ControllerState),
      (finishTaskSuccess task capId res startTime now s).1.status =
        TaskStatus.completed ∧
      (finishTaskSuccess task capId res startTime now s).1.completedAt =
        some now) ∧
    (∀ (task : Task) (capId err : String) (now : Nat)
      (s : ControllerState),
      (¬ task.retryCount < task.maxRetries →
        (handleTaskError task capId err now s).1.completedAt = some now) ∧
      (task.retryCount < task.maxRetries →
        (handleTaskError task capId err now s).1.completedAt =
          task.completedAt)) ∧
    (∀ (now : Nat) (s : ControllerState) (t0 : Task) (rest : List Task),
      s.taskQueue = t0 :: rest →
      s.activeTasks.length < s.config.maxConcurrentTasks →
      candidateList t0 s.capabilities = [] →
      ¬ t0.retryCount < t0.maxRetries →
      ∃ tf : Task,
        processTaskQueue now s =
          (DispatchResult.failedNoCap tf, { s with taskQueue := rest }) ∧
        tf.status = TaskStatus.failed ∧ tf.completedAt = t0.completedAt) ∧
    (∀ (now : Nat) (s : ControllerState) (t : Task),
      t ∈ (monitorHealth now s).1 →
      t.status = TaskStatus.failed ∧
        ∃ t0 ∈ s.taskQueue, t.completedAt = t0.completedAt) ∧
    (∀ (taskId : Nat) (s : ControllerState) (u : Task),
      u ∈ (cancelTask taskId s).2.taskQueue →
      ∃ t0 ∈ s.taskQueue, u.completedAt = t0.completedAt) := by
  refine ⟨fun task capId res startTime now s => ⟨rfl, rfl⟩, ?_, ?_, ?_, ?_⟩
  · intro task capId err now s
    constructor
    · intro h
      rw [handleTaskError_terminal h]
    · intro h
      rw [handleTaskError_retry_task h]
  · intro now s t0 rest hq hcap hsel hretry
    exact ⟨_, processTaskQueue_noCap_fail hq hcap hsel hretry, rfl, rfl⟩
  · intro now s t ht
    obtain ⟨hs, _, hrest⟩ := monitorHealth_evicted ht
    exact ⟨hs, hrest⟩
  · intro taskId s u hu
    exact cancelTask_queue_completedAt hu

/-- Witness for the completedAt theorem: terminal handleTaskError sets
completedAt, and the concrete cancelled task keeps completedAt unset. -/
theorem completedAt_set_only_by_execution_paths_witness :
    (handleTaskError (freshThrowTask 0) "agent-zero-auto" "boom" 3
        (mkThrowState (freshThrowTask 0) 1 0 [] 0)).1.completedAt =
      some 3 ∧
    (∃ t0 ∈ preCancelState.taskQueue,
      ({ submittedTask0 with status := TaskStatus.cancelled } :
          Task).completedAt = t0.completedAt) :=
  ⟨(completedAt_set_only_by_execution_paths.2.1 (freshThrowTask 0)
      "agent-zero-auto" "boom" 3
      (mkThrowState (freshThrowTask 0) 1 0 [] 0)).1 (by decide),
    completedAt_set_only_by_execution_paths.2.2.2.2 0 preCancelState
      { submittedTask0 with status := TaskStatus.cancelled } (by decide)⟩

/-- C6 counterexample: the one-shot task terminally fails with an error
string, yet `getTask` afterwards returns none — the failure is not
observable through `getTask`. -/
theorem failed_task_invisible_to_getTask :
    oneShotFailed.map (fun t => (t.status, t.error)) =
      some (TaskStatus.failed, some "executor exploded") ∧
    getTask oneShotFinal 0 = none := by decide

/-- C6 (amended): both terminal-failure paths mark the task failed with a
non-empty error on the emitted task object, but remove it from the active
map (and it is no longer queued), so `getTask` then returns none —
failure is observable only via the `task_failed` event payload or the
caller's own task reference. -/
theorem terminal_failure_removed_from_state :
    (∀ (task : Task) (capId err : String) (now : Nat)
      (s : ControllerState),
      ¬ task.retryCount < task.maxRetries →
      (handleTaskError task capId err now s).1.status =
        TaskStatus.failed ∧
      (handleTaskError task capId err now s).1.error = some err ∧
      (findTask s.taskQueue task.id = none →
        getTask (handleTaskError task capId err now s).2 task.id =
          none)) ∧
    (∀ (now : Nat) (s : ControllerState) (t0 : Task) (rest : List Task),
      s.taskQueue = t0 :: rest →
      s.activeTasks.length < s.config.maxConcurrentTasks →
      candidateList t0 s.capabilities = [] →
      ¬ t0.retryCount < t0.maxRetries →
      ∃ tf : Task,
        processTaskQueue now s =
          (DispatchResult.failedNoCap tf, { s with taskQueue := rest }) ∧
        tf.status = TaskStatus.failed ∧
        tf.error = some "No capable agent available" ∧
        (findTask rest t0.id = none →
          findTask s.activeTasks t0.id = none →
          getTask { s with taskQueue := rest } t0.id = none)) ∧
    ("No capable agent available" : String) ≠ "" := by
  refine ⟨?_, ?_, by decide⟩
  · intro task capId err now s h
    rw [handleTaskError_terminal h]
    refine ⟨rfl, rfl, ?_⟩
    intro hq
    simp [getTask, findTask_filter_ne, hq]
  · intro now s t0 rest hq hcap hsel hretry
    refine ⟨_, processTaskQueue_noCap_fail hq hcap hsel hretry, rfl, rfl,
      ?_⟩
    intro h1 h2
    simp [getTask, h1, h2]

/-- Witness for the terminal-failure observability theorem at concrete
states. -/
theorem terminal_failure_removed_from_state_witness :
    getTask (handleTaskError (freshThrowTask 0) "agent-zero-auto" "boom"
        3 (initController DEFAULT_CONFIG)).2 0 = none ∧
    (∃ tf : Task,
      processTaskQueue 5 noCapFailState =
        (DispatchResult.failedNoCap tf,
          { noCapFailState with taskQueue := ([] : List Task) }) ∧
      tf.status = TaskStatus.failed ∧
      tf.error = some "No capable agent available" ∧
      (findTask ([] : List Task) lowNoCapTask.id = none →
        findTask noCapFailState.activeTasks lowNoCapTask.id = none →
        getTask { noCapFailState with taskQueue := ([] : List Task) }
          lowNoCapTask.id = none)) :=
  ⟨(terminal_failure_removed_from_state.1 (freshThrowTask 0)
        "agent-zero-auto" "boom" 3 (initController DEFAULT_CONFIG)
        (by decide)).2.2 (by decide),
    terminal_failure_removed_from_state.2.1 5 noCapFailState
      lowNoCapTask [] rfl (by decide) (by decide) (by decide)⟩

/-- C7 counterexample: with no capability available, a critical task with
retry budget is pushed to the back of the whole queue, behind an
already-queued low task, and the next tick pops the low task first. -/
theorem critical_requeue_behind_low :
    (processTaskQueue 0 noCapState).2.taskQueue.map (fun t => t.priority) =
      [TaskPriority.low, TaskPriority.critical] ∧
    (poppedTask (processTaskQueue 1 (processTaskQueue 0 noCapState).2).1).map
      (fun t => t.priority) = some TaskPriority.low := by decide

/-- C7 (amended): when no capability is available and the task still has
retry budget, `processTaskQueue` pushes it to the back of the entire
queue (`taskQueue.push`), not to the back of its priority class, so a
critical task re-queued this way can sit behind queued low tasks. -/
theorem requeue_goes_to_global_back :
    ∀ (now : Nat) (s : ControllerState) (t0 : Task) (rest : List Task),
      s.taskQueue = t0 :: rest →
      s.activeTasks.length < s.config.maxConcurrentTasks →
      candidateList t0 s.capabilities = [] →
      t0.retryCount < t0.maxRetries →
      processTaskQueue now s =
        (DispatchResult.requeued
            { t0 with retryCount := t0.retryCount + 1 },
          { s with
            taskQueue :=
              rest ++ [{ t0 with retryCount := t0.retryCount + 1 }] }) :=
  fun now s t0 rest hq hcap hsel hr =>
    processTaskQueue_noCap_requeue hq hcap hsel hr

/-- Witness for the global-back requeue theorem at the concrete
critical-ahead-of-low state. -/
theorem requeue_goes_to_global_back_witness :
    processTaskQueue 0 noCapState =
      (DispatchResult.requeued { critNoCapTask with retryCount := 1 },
        { noCapState with
          taskQueue :=
            [lowNoCapTask] ++
              [{ critNoCapTask with retryCount := 1 }] }) :=
  requeue_goes_to_global_back 0 noCapState critNoCapTask [lowNoCapTask]
    rfl (by decide) (by decide) (by decide)

/-- C8: `setMode("unrestricted")` always forces both filtering flags off
and is idempotent on the config; `setMode("supervised")` forces both on;
`setMode("autonomous")` leaves both flags unchanged; and the composite
supervised → unrestricted → autonomous leaves contentFiltering off. -/
theorem setMode_filtering_asymmetry :
    (∀ (s : ControllerState) (now : Nat),
      (setMode OperationMode.unrestricted now s).config.contentFiltering =
          false ∧
        (setMode OperationMode.unrestricted now s).config.safetyGuardrails =
          false) ∧
    (∀ (s : ControllerState) (n1 n2 : Nat),
      (setMode OperationMode.unrestricted n2
          (setMode OperationMode.unrestricted n1 s)).config =
        (setMode OperationMode.unrestricted n1 s).config) ∧
    (∀ (s : ControllerState) (now : Nat),
      (setMode OperationMode.supervised now s).config.contentFiltering =
          true ∧
        (setMode OperationMode.supervised now s).config.safetyGuardrails =
          true) ∧
    (∀ (s : ControllerState) (now : Nat),
      (setMode OperationMode.autonomous now s).config.contentFiltering =
          s.config.contentFiltering ∧
        (setMode OperationMode.autonomous now s).config.safetyGuardrails =
          s.config.safetyGuardrails ∧
        (setMode OperationMode.autonomous now s).config.mode =
          OperationMode.autonomous) ∧
    (∀ (s : ControllerState) (n1 n2 n3 : Nat),
      (setMode OperationMode.autonomous n3
          (setMode OperationMode.unrestricted n2
            (setMode OperationMode.supervised n1 s))).config.contentFiltering =
        false) := by
  refine ⟨fun s now => ?_, fun s n1 n2 => ?_, fun s now => ?_,
    fun s now => ?_, fun s n1 n2 n3 => ?_⟩ <;>
    simp [setMode, makeDecision]

/-- C9: `registerService` is an idempotent upsert keyed by id: two
registrations under one id leave exactly one services entry, carrying the
second call's fields with status reset to unknown and lastCheck cleared,
and each call appends one `config_changed` event. -/
theorem registerService_idempotent_upsert
    (st : AutoConfigState) (s1 s2 : ServiceRegistration)
    (hid : s1.id = s2.id)
    (hcount : serviceKeyCount st.services s2.id ≤ 1) :
    serviceKeyCount
        (registerService s2 (registerService s1 st)).services s2.id = 1 ∧
    serviceGet (registerService s2 (registerService s1 st)).services
        s2.id = some (registeredEndpoint s2) ∧
    (registeredEndpoint s2).status = EndpointStatus.unknown ∧
    (registeredEndpoint s2).lastCheck = none ∧
    (registeredEndpoint s2).url = s2.url ∧
    (registerService s2 (registerService s1 st)).events =
      st.events ++
        [(ConfigEventType.configChanged, registeredEndpoint s1),
          (ConfigEventType.configChanged, registeredEndpoint s2)] := by
  have hc1 : serviceKeyCount (registerService s1 st).services s2.id = 1 := by
    rw [registerService]
    show serviceKeyCount
      (serviceSet st.services (registeredEndpoint s1).id
        (registeredEndpoint s1)) s2.id = 1
    rw [show (registeredEndpoint s1).id = s2.id from hid]
    exact serviceKeyCount_set st.services s2.id (registeredEndpoint s1)
      hcount
  refine ⟨?_, ?_, rfl, rfl, rfl, ?_⟩
  · rw [registerService]
    show serviceKeyCount
      (serviceSet (registerService s1 st).services
        (registeredEndpoint s2).id (registeredEndpoint s2)) s2.id = 1
    exact serviceKeyCount_set _ _ _ (le_of_eq hc1)
  · rw [registerService]
    show serviceGet
      (serviceSet (registerService s1 st).services
        (registeredEndpoint s2).id (registeredEndpoint s2)) s2.id =
      some (registeredEndpoint s2)
    exact serviceGet_set _ _ _
  · rw [registerService, registerService]
    simp

/-- Witness for the idempotent-upsert theorem: registering `svc-1` twice
with different urls from the empty registry. -/
theorem registerService_idempotent_upsert_witness :
    serviceKeyCount
        (registerService svcRegB
          (registerService svcRegA
            ({ services := [], events := [] } : AutoConfigState))).services
        "svc-1" = 1 ∧
    serviceGet
        (registerService svcRegB
          (registerService svcRegA
            ({ services := [], events := [] } : AutoConfigState))).services
        "svc-1" = some (registeredEndpoint svcRegB) ∧
    (registeredEndpoint svcRegB).status = EndpointStatus.unknown ∧
    (registeredEndpoint svcRegB).lastCheck = none ∧
    (registeredEndpoint svcRegB).url = "http://new.example" ∧
    (registerService svcRegB
        (registerService svcRegA
          ({ services := [], events := [] } : AutoConfigState))).events =
      [] ++
        [(ConfigEventType.configChanged, registeredEndpoint svcRegA),
          (ConfigEventType.configChanged, registeredEndpoint svcRegB)] :=
  registerService_idempotent_upsert
    { services := [], events := [] } svcRegA svcRegB rfl (by decide)

/-- C10: `getStatus().tasks.completed` counts executed decisions, not
completed tasks — after a single mode change the counter reads 1 while
the controller holds no tasks at all. -/
theorem status_completed_counts_executed_decisions :
    (∀ s : ControllerState,
      (getStatus s).tasks.completed =
        (s.decisions.filter (fun d => d.executed)).length) ∧
    (getStatus oneDecisionState).tasks.completed = 1 ∧
    oneDecisionState.taskQueue = [] ∧
    oneDecisionState.activeTasks = [] :=
  ⟨fun s => rfl, by decide⟩

end Clawdbot
